import Mathlib

/-!
Shallow embedding of the process supervisor in package gpcprocessmgr
(gpcprocessmgr.go, gpcruntimedata.go) together with the ProcessConfig
record of package gpcconfig.

Modelling conventions:
  * OS interactions are passed in as explicit oracle arguments:
    - the result of exec.Cmd.Start / GetLogFileForProcess as Option values,
    - liveness of a pid (checkProcessRunning / OpenProcess) as membership
      in an `alive : List Nat` set of running pids,
    - the success of the final taskkill as a function of the pid.
  * An unset pid is 0, exactly as in NewProcRuntimeData (pid 0 is the
    Windows idle process, never a child; OpenProcess on it fails, so the
    code treats it as exited).
  * Go niceties that the claims depend on are modelled faithfully:
    exec.Cmd.Start leaves cmd.Process nil on failure, so a dereference of
    it afterwards is a panic, modelled by a `panicked` flag / Option none.
  * Side effects on the log sink and on child processes are recorded as
    an event trace so that open/close/kill counts can be stated.
-/

structure ProcessConfig where
  name : String
  path : String
  args : List String
  startDelayS : Nat
  maxRestarts : Nat
  waitForExitTimeoutS : Nat
  hideWindow : Bool
  stopPath : String
  stopArgs : List String
deriving Repr, DecidableEq

structure OSProcess where
  pid : Nat
deriving Repr, DecidableEq

/-- The parts of exec.Cmd the supervisor uses: the executable path, the
argument list handed to exec.Command, the process handle (nil until Start
succeeds), and the settings written by doProcessSettings. -/
structure Cmd where
  path : String
  args : List String
  process : Option OSProcess
  hideWindow : Bool
  hasOutputRedirect : Bool
deriving Repr, DecidableEq

/-- The anonymous procStatus struct of GPCProcRuntimeData. -/
structure ProcStatus where
  pid : Nat
  active : Bool
  error : Bool
  timeout : Bool
  done : Bool
  restartCount : Nat
deriving Repr, DecidableEq

structure GPCProcRuntimeData where
  procConfig : ProcessConfig
  procCmd : Option Cmd
  procLog : Option Nat
  procStatus : ProcStatus
deriving Repr, DecidableEq

/-- Observable side effects of the supervisor's operations. -/
inductive Event where
  | sinkOpen (sink : Nat)
  | sinkClose (sink : Nat)
  | launch (name : String)
  | sigterm (pid : Nat)
  | sigkill (pid : Nat)
  | taskkill (pid : Nat)
deriving Repr, DecidableEq, BEq

def countEvent (l : List Event) (e : Event) : Nat :=
  (l.filter fun x => decide (x = e)).length

def isKillEvent : Event → Bool
  | Event.sigterm _ => true
  | Event.sigkill _ => true
  | Event.taskkill _ => true
  | _ => false

/-- NewProcRuntimeData (gpcruntimedata.go): the default record. -/
def NewProcRuntimeData (configData : ProcessConfig) : GPCProcRuntimeData :=
  { procConfig := configData
    procCmd := none
    procLog := none
    procStatus :=
      { pid := 0, active := false, error := false, timeout := false,
        done := false, restartCount := 0 } }

/-- checkProcessRunning: OpenProcess on the pid; an error (dead process,
pid 0, or an inaccessible process) is reported as not running.  `true`
means the probe found the process alive. -/
def checkProcessRunning (alive : List Nat) (pid : Nat) : Bool :=
  decide (pid ∈ alive)

/-- doProcessSettings: clears stdin, asks the logging collaborator for a
sink (`logResult`), on success redirects stdout/stderr to it and stores it
in procLog for later closing, and applies the hide-window option.  On a
sink-open failure it only logs; procLog keeps its previous value. -/
def doProcessSettings (proc : GPCProcRuntimeData) (cmd : Cmd)
    (logResult : Option Nat) : GPCProcRuntimeData × Cmd × List Event :=
  match logResult with
  | none => (proc, { cmd with hideWindow := proc.procConfig.hideWindow }, [])
  | some sink =>
      ({ proc with procLog := some sink },
       { cmd with hasOutputRedirect := true,
                  hideWindow := proc.procConfig.hideWindow },
       [Event.sinkOpen sink])

/-- Result of one launcher invocation: the updated record, the emitted
events, and whether the invocation panicked (nil-pointer dereference). -/
structure LaunchOutcome where
  record : GPCProcRuntimeData
  events : List Event
  panicked : Bool
deriving Repr, DecidableEq

/-- launchProcess: fire-and-forget variant.  Builds exec.Command(path)
(note: only the path, no argument list), runs doProcessSettings, starts
the process, and on success stores pid and sets active.  `startResult` is
the oracle for cmd.Start(): some pid on success, none on failure.  The
final cmd.Process.Release() dereferences cmd.Process, which Go leaves nil
when Start failed: that case is recorded as panicked. -/
def launchProcess (r : GPCProcRuntimeData) (logResult : Option Nat)
    (startResult : Option Nat) : LaunchOutcome :=
  let cmd0 : Cmd :=
    { path := r.procConfig.path, args := [], process := none,
      hideWindow := false, hasOutputRedirect := false }
  match doProcessSettings r cmd0 logResult with
  | (r1, cmd1, ev1) =>
    match startResult with
    | none =>
        { record :=
            { r1 with procCmd := some cmd1,
                      procStatus := { r1.procStatus with error := true } }
          events := ev1 ++ [Event.launch r.procConfig.name]
          panicked := true }
    | some pid =>
        { record :=
            { r1 with procCmd := some { cmd1 with process := some { pid := pid } },
                      procStatus :=
                        { r1.procStatus with pid := pid, active := true } }
          events := ev1 ++ [Event.launch r.procConfig.name]
          panicked := false }

/-- How one run of a run-and-wait process can end, as events in the OS. -/
inductive RunOutcome where
  | startFailure
  | exited (code : Nat)
  | killedByTimeout
deriving Repr, DecidableEq

inductive RunError where
  | exitError
  | otherError
deriving Repr, DecidableEq

/-- Go os/exec semantics of cmd.Run() under a context deadline: a start
failure yields a non-ExitError error; a process that exits by itself with
status 0 yields nil; a nonzero self-exit yields an ExitError; a process
killed by the context deadline also surfaces as an ExitError. -/
def runResult : RunOutcome → Option RunError
  | RunOutcome.startFailure => some RunError.otherError
  | RunOutcome.exited 0 => none
  | RunOutcome.exited (_ + 1) => some RunError.exitError
  | RunOutcome.killedByTimeout => some RunError.exitError

/-- launchProcessAndWait: run-and-wait variant.  Parses the timeout
duration (`parseOk` is the oracle for time.ParseDuration), builds
exec.CommandContext(ctx, path) (again path only, no argument list), runs
doProcessSettings, then Run()s.  `active` is set to true unconditionally
right after Run returns; the switch then marks a non-ExitError error as a
startup error, and an ExitError as timeout and done.  pid is never
assigned in this function. -/
def launchProcessAndWait (r : GPCProcRuntimeData) (logResult : Option Nat)
    (parseOk : Bool) (outcome : RunOutcome) : LaunchOutcome :=
  if parseOk = false then
    { record := { r with procStatus := { r.procStatus with error := true } }
      events := [], panicked := false }
  else
    let cmd0 : Cmd :=
      { path := r.procConfig.path, args := [], process := none,
        hideWindow := false, hasOutputRedirect := false }
    match doProcessSettings r cmd0 logResult with
    | (r1, cmd1, ev1) =>
      let r2 : GPCProcRuntimeData :=
        { r1 with procCmd := some cmd1,
                  procStatus := { r1.procStatus with active := true } }
      match runResult outcome with
      | some RunError.otherError =>
          { record := { r2 with procStatus := { r2.procStatus with error := true } }
            events := ev1 ++ [Event.launch r.procConfig.name]
            panicked := false }
      | some RunError.exitError =>
          { record :=
              { r2 with procStatus :=
                  { r2.procStatus with timeout := true, done := true } }
            events := ev1 ++ [Event.launch r.procConfig.name]
            panicked := false }
      | none =>
          { record := { r2 with procStatus := { r2.procStatus with done := true } }
            events := ev1 ++ [Event.launch r.procConfig.name]
            panicked := false }

/-- killProcess: Release, then SIGTERM and SIGKILL (both results
discarded), then taskkill /T /F /PID, whose error is the return value.
`termOk` and `killSigOk` are the oracles for the two Signal calls,
`taskkillOk` for the final taskkill, keyed by the handle pid.  Every step
dereferences proc.Process, so a nil handle is a panic (none). -/
def killProcess (cmd : Cmd) (termOk killSigOk : Bool)
    (taskkillOk : Nat → Bool) : Option (List Event × Bool) :=
  match cmd.process with
  | none => none
  | some h =>
      some ([Event.sigterm h.pid, Event.sigkill h.pid, Event.taskkill h.pid],
            taskkillOk h.pid)

/-- The close-log-file step shared by the monitor loop and ShutdownAll:
if procLog is non-nil, Close() it.  Neither caller clears procLog
afterwards. -/
def closeSink (r : GPCProcRuntimeData) : List Event :=
  match r.procLog with
  | none => []
  | some s => [Event.sinkClose s]

/-- The restart decision of monitorProcesses (spec 4.5): when MaxRestarts
is positive and restartCount is still below it, increment restartCount and
launch again; when the budget is exhausted, set the error flag. -/
def restartPolicy (r : GPCProcRuntimeData) (logResult startResult : Option Nat) :
    GPCProcRuntimeData × List Event × Bool :=
  if r.procConfig.maxRestarts > 0 then
    if r.procStatus.restartCount < r.procConfig.maxRestarts then
      let lo := launchProcess
        { r with procStatus :=
            { r.procStatus with restartCount := r.procStatus.restartCount + 1 } }
        logResult startResult
      (lo.record, lo.events, lo.panicked)
    else
      ({ r with procStatus := { r.procStatus with error := true } }, [], false)
  else (r, [], false)

/-- One monitor-loop visit of one record (body of the inner loop of
monitorProcesses): only no-wait records with a command and active flag are
probed; when the probe reports the process gone, active is cleared, the
sink is closed (procLog itself is left set), and the restart policy
runs. -/
def monitorRecord (alive : List Nat) (r : GPCProcRuntimeData)
    (logResult startResult : Option Nat) :
    GPCProcRuntimeData × List Event × Bool :=
  if r.procConfig.waitForExitTimeoutS < 1 ∧ r.procCmd.isSome = true ∧
      r.procStatus.active = true then
    if checkProcessRunning alive r.procStatus.pid then (r, [], false)
    else
      let r1 : GPCProcRuntimeData :=
        { r with procStatus := { r.procStatus with active := false } }
      let rp := restartPolicy r1 logResult startResult
      (rp.1, closeSink r1 ++ rp.2.1, rp.2.2)
  else (r, [], false)

/-- The unconditional flag write of ShutdownAll on one record:
runtimeData.procStatus.active = false. -/
def deactivate (r : GPCProcRuntimeData) : GPCProcRuntimeData :=
  { r with procStatus := { r.procStatus with active := false } }

/-- One record's share of ShutdownAll: probe liveness; if alive, call
killProcess (a nil procCmd or nil handle is a panic, none) and, when the
taskkill succeeded, the pid disappears from the OS; then unconditionally
clear active and close a non-nil sink. -/
def shutdownRecord (taskkillOk : Nat → Bool) (alive : List Nat)
    (r : GPCProcRuntimeData) :
    Option (List Nat × GPCProcRuntimeData × List Event) :=
  let rDone : GPCProcRuntimeData := deactivate r
  if checkProcessRunning alive r.procStatus.pid then
    match r.procCmd with
    | none => none
    | some cmd =>
      match killProcess cmd true true taskkillOk with
      | none => none
      | some (evs, ok) =>
          match cmd.process with
          | none => none
          | some h =>
              some ((if ok then alive.filter (fun q => decide (q ≠ h.pid))
                     else alive),
                    rDone, evs ++ closeSink r)
  else
    some (alive, rDone, closeSink r)

/-- ShutdownAll: one pass over every record (the stop flag for the monitor
loop is set first; it does not touch the records and is left out of the
per-record model).  Threads the OS alive set through the records and
concatenates the event traces; none propagates a panic. -/
def ShutdownAll (taskkillOk : Nat → Bool) :
    List Nat → List GPCProcRuntimeData →
    Option (List Nat × List GPCProcRuntimeData × List Event)
  | alive, [] => some (alive, [], [])
  | alive, r :: rs =>
    match shutdownRecord taskkillOk alive r with
    | none => none
    | some (alive2, r2, evs) =>
      match ShutdownAll taskkillOk alive2 rs with
      | none => none
      | some (alive3, rs2, evs2) => some (alive3, r2 :: rs2, evs ++ evs2)

/-- Iterated monitor detections of a process that is dead at every probe
(`alive = []`), each restart launch succeeding with pid `p` and a fresh
sink `s`.  Returns the final record and the number of launch attempts
performed by the monitor cycles. -/
def exitCycles (p s : Nat) : Nat → GPCProcRuntimeData → GPCProcRuntimeData × Nat
  | 0, r => (r, 0)
  | k + 1, r =>
    match monitorRecord [] r (some s) (some p) with
    | (r1, evs, _) =>
      match exitCycles p s k r1 with
      | (r2, n) => (r2, countEvent evs (Event.launch r.procConfig.name) + n)

/-- The argv of a launch request as handed to the OS. -/
def cmdArgv (c : Cmd) : List String :=
  c.path :: c.args

/-- Modelled from the spec: the launch request the spec prescribes,
"builds the OS launch request from spec.path/args" (spec 4.2), i.e. the
executable path followed by the configured argument list. -/
def specLaunchArgv (cfg : ProcessConfig) : List String :=
  cfg.path :: cfg.args

/-- The record of a no-wait process between a successful launch with pid
`p` and sink `s` and the next monitor detection, with restart count `c`. -/
def runState (cfg : ProcessConfig) (p s c : Nat) : GPCProcRuntimeData :=
  { procConfig := cfg
    procCmd := some
      { path := cfg.path, args := [], process := some { pid := p },
        hideWindow := cfg.hideWindow, hasOutputRedirect := true }
    procLog := some s
    procStatus :=
      { pid := p, active := true, error := false, timeout := false,
        done := false, restartCount := c } }

/-- The record after the restart budget is exhausted: inactive, errored,
restartCount pinned at maxRestarts, sink handle still set. -/
def errState (cfg : ProcessConfig) (p s : Nat) : GPCProcRuntimeData :=
  { procConfig := cfg
    procCmd := some
      { path := cfg.path, args := [], process := some { pid := p },
        hideWindow := cfg.hideWindow, hasOutputRedirect := true }
    procLog := some s
    procStatus :=
      { pid := p, active := false, error := true, timeout := false,
        done := false, restartCount := cfg.maxRestarts } }

/-- Example no-wait spec with a restart budget of 2 (the spec 8 scenario
for process A). -/
def cfgA : ProcessConfig :=
  { name := "A", path := "procA.exe", args := [], startDelayS := 0,
    maxRestarts := 2, waitForExitTimeoutS := 0, hideWindow := false,
    stopPath := "", stopArgs := [] }

/-- Example run-and-wait spec (the spec 8 scenario for process B). -/
def cfgB : ProcessConfig :=
  { name := "B", path := "procB.exe", args := [], startDelayS := 0,
    maxRestarts := 0, waitForExitTimeoutS := 2, hideWindow := false,
    stopPath := "", stopArgs := [] }

/-- Example no-wait spec with no restart budget. -/
def cfgC : ProcessConfig :=
  { name := "C", path := "procC.exe", args := [], startDelayS := 0,
    maxRestarts := 0, waitForExitTimeoutS := 0, hideWindow := false,
    stopPath := "", stopArgs := [] }

/-- Example spec with a configured argument list. -/
def cfgArgs : ProcessConfig :=
  { name := "E", path := "notepad.exe", args := ["myfile.txt"],
    startDelayS := 0, maxRestarts := 0, waitForExitTimeoutS := 0,
    hideWindow := false, stopPath := "", stopArgs := [] }

/-- The invariant of spec 3: an active record has an assigned pid. -/
def pidInv (r : GPCProcRuntimeData) : Prop :=
  r.procStatus.active = true → r.procStatus.pid ≠ 0

/-- A concrete command with a live handle, for witnesses. -/
def cmdK : Cmd :=
  { path := "procK.exe", args := [], process := some { pid := 9 },
    hideWindow := false, hasOutputRedirect := true }

/-- A concrete running record (process C just after a successful launch),
for witnesses. -/
def recC : GPCProcRuntimeData :=
  (launchProcess (NewProcRuntimeData cfgC) (some 7) (some 5)).record

/-- A concrete active record with a live handle (pid 9), for the
shutdown witness. -/
def recW : GPCProcRuntimeData :=
  { procConfig := cfgC, procCmd := some cmdK, procLog := some 3,
    procStatus :=
      { pid := 9, active := true, error := false, timeout := false,
        done := false, restartCount := 0 } }

theorem launch_fresh (cfg : ProcessConfig) (p s : Nat) :
    (launchProcess (NewProcRuntimeData cfg) (some s) (some p)).record =
      runState cfg p s 0 := by
  rfl

theorem monitor_step_restart (cfg : ProcessConfig) (p s c : Nat)
    (hw : cfg.waitForExitTimeoutS = 0) (hc : c < cfg.maxRestarts) :
    monitorRecord [] (runState cfg p s c) (some s) (some p) =
      (runState cfg p s (c + 1),
       [Event.sinkClose s, Event.sinkOpen s, Event.launch cfg.name], false) := by
  have hm : 0 < cfg.maxRestarts := Nat.lt_of_le_of_lt (Nat.zero_le c) hc
  simp [monitorRecord, runState, checkProcessRunning, restartPolicy, hw, hm, hc,
    launchProcess, doProcessSettings, closeSink]

theorem monitor_step_exhaust (cfg : ProcessConfig) (p s : Nat)
    (hw : cfg.waitForExitTimeoutS = 0) (hm : 0 < cfg.maxRestarts) :
    monitorRecord [] (runState cfg p s cfg.maxRestarts) (some s) (some p) =
      (errState cfg p s, [Event.sinkClose s], false) := by
  simp [monitorRecord, runState, errState, checkProcessRunning, restartPolicy,
    hw, hm, closeSink]

theorem monitor_step_err (cfg : ProcessConfig) (p s : Nat)
    (logResult startResult : Option Nat) (alive : List Nat) :
    monitorRecord alive (errState cfg p s) logResult startResult =
      (errState cfg p s, [], false) := by
  simp [monitorRecord, errState]

theorem exitCycles_err_fixpoint (cfg : ProcessConfig) (p s k : Nat) :
    exitCycles p s k (errState cfg p s) = (errState cfg p s, 0) := by
  induction k with
  | zero => rfl
  | succ k ih =>
      simp [exitCycles, monitor_step_err, ih, countEvent]

theorem exitCycles_drain (cfg : ProcessConfig) (p s : Nat)
    (hw : cfg.waitForExitTimeoutS = 0) (hm : 0 < cfg.maxRestarts) :
    ∀ j c, c + j = cfg.maxRestarts →
      exitCycles p s (j + 1) (runState cfg p s c) = (errState cfg p s, j) := by
  intro j
  induction j with
  | zero =>
      intro c hc
      have hc0 : c = cfg.maxRestarts := by omega
      subst hc0
      simp only [exitCycles]
      rw [monitor_step_exhaust cfg p s hw hm]
      simp [countEvent, runState]
  | succ j ih =>
      intro c hc
      have hlt : c < cfg.maxRestarts := by omega
      have ihc := ih (c + 1) (by omega)
      generalize hK : j + 1 = K at ihc ⊢
      simp only [exitCycles]
      rw [monitor_step_restart cfg p s c hw hlt]
      simp only []
      rw [ihc]
      simp [countEvent, runState]
      omega

/-- C1: for a fire-and-forget process with maxRestarts = N > 0 that exits
on every launch, the monitor performs exactly N automatic restart
attempts; after the (N+1)-th detected exit the record has
restartCount = N and hasError = true, and every further monitor cycle
leaves the record unchanged and performs no launch. -/
theorem restart_budget_enforced (cfg : ProcessConfig) (p s N : Nat)
    (hN : cfg.maxRestarts = N) (hw : cfg.waitForExitTimeoutS = 0)
    (hpos : 0 < N) :
    exitCycles p s (N + 1)
        (launchProcess (NewProcRuntimeData cfg) (some s) (some p)).record =
      (errState cfg p s, N) ∧
    (errState cfg p s).procStatus.restartCount = N ∧
    (errState cfg p s).procStatus.error = true ∧
    ∀ k, exitCycles p s k (errState cfg p s) = (errState cfg p s, 0) := by
  subst hN
  refine ⟨?_, rfl, rfl, fun k => exitCycles_err_fixpoint cfg p s k⟩
  rw [launch_fresh]
  exact exitCycles_drain cfg p s hw hpos cfg.maxRestarts 0 (by omega)

/-- Witness for C1 at the spec 8 scenario: process A, maxRestarts = 2. -/
theorem restart_budget_enforced_witness :
    cfgA.maxRestarts = 2 ∧ cfgA.waitForExitTimeoutS = 0 ∧ 0 < 2 ∧
    (exitCycles 5 1 (2 + 1)
        (launchProcess (NewProcRuntimeData cfgA) (some 1) (some 5)).record =
      (errState cfgA 5 1, 2) ∧
    (errState cfgA 5 1).procStatus.restartCount = 2 ∧
    (errState cfgA 5 1).procStatus.error = true ∧
    ∀ k, exitCycles 5 1 k (errState cfgA 5 1) = (errState cfgA 5 1, 0)) :=
  ⟨rfl, rfl, by decide, restart_budget_enforced cfgA 5 1 2 rfl rfl (by decide)⟩

/-- C9: killProcess issues the graceful termination request, the forceful
kill request, and the forced tree-wide kill by pid, in that order; its
return value is exactly the outcome of the final tree-wide kill, whatever
the two earlier requests returned. -/
theorem terminator_escalation (cmd : Cmd) (h : OSProcess)
    (termOk killSigOk : Bool) (taskkillOk : Nat → Bool)
    (hp : cmd.process = some h) :
    killProcess cmd termOk killSigOk taskkillOk =
      some ([Event.sigterm h.pid, Event.sigkill h.pid, Event.taskkill h.pid],
            taskkillOk h.pid) := by
  simp [killProcess, hp]

/-- Witness for C9 on a concrete handle, with both early requests
failing and the final taskkill succeeding. -/
theorem terminator_escalation_witness :
    cmdK.process = some { pid := 9 } ∧
    killProcess cmdK false false (fun _ => true) =
      some ([Event.sigterm 9, Event.sigkill 9, Event.taskkill 9], true) :=
  ⟨rfl, terminator_escalation cmdK { pid := 9 } false false (fun _ => true) rfl⟩

/-- C10: contrary to the claim, when cmd.Start() fails the launch handle
(cmd.Process) is nil and the unconditional Process.Release() call of
launchProcess dereferences it: the error branch panics. -/
theorem launch_release_panics_on_start_failure :
    (launchProcess (NewProcRuntimeData cfgC) (some 1) none).panicked = true :=
  rfl

/-- C8: the code builds the launch request from the executable path only,
dropping the configured argument list, in both launcher variants; the
spec-prescribed request (path followed by args) differs whenever args is
non-empty. -/
theorem launch_ignores_config_args :
    (∃ c, (launchProcess (NewProcRuntimeData cfgArgs) (some 1) (some 4)).record.procCmd
          = some c ∧
        cmdArgv c = [cfgArgs.path] ∧
        cmdArgv c ≠ specLaunchArgv cfgArgs) ∧
    (∃ c, (launchProcessAndWait (NewProcRuntimeData cfgArgs) (some 1) true
            (RunOutcome.exited 0)).record.procCmd = some c ∧
        cmdArgv c = [cfgArgs.path] ∧
        cmdArgv c ≠ specLaunchArgv cfgArgs) ∧
    specLaunchArgv cfgArgs = ["notepad.exe", "myfile.txt"] :=
  ⟨⟨_, rfl, rfl, by decide⟩, ⟨_, rfl, rfl, by decide⟩, rfl⟩

/-- C5 counterexample: a restart launch whose start fails. After process A
is launched with pid 5 and its exit is detected, the automatic restart
attempt fails to start: the record then has hasError = true but pid is
still 5, not unset, contradicting the claimed outcome. -/
theorem launch_failure_keeps_old_pid :
    (monitorRecord []
        (launchProcess (NewProcRuntimeData cfgA) (some 1) (some 5)).record
        (some 2) none).1.procStatus.error = true ∧
    (monitorRecord []
        (launchProcess (NewProcRuntimeData cfgA) (some 1) (some 5)).record
        (some 2) none).1.procStatus.pid = 5 :=
  ⟨rfl, rfl⟩

/-- C5 amended: on a start failure, launchProcess sets hasError and leaves
active and pid unchanged (so on an initial launch from a fresh record they
are still false and unset); on start success it stores the new pid, sets
active, and leaves hasError unchanged (false unless the record was already
errored). -/
theorem launch_outcome_flags (r : GPCProcRuntimeData) (lr : Option Nat)
    (p : Nat) (cfg : ProcessConfig) :
    ((launchProcess r lr none).record.procStatus.error = true ∧
     (launchProcess r lr none).record.procStatus.active = r.procStatus.active ∧
     (launchProcess r lr none).record.procStatus.pid = r.procStatus.pid) ∧
    ((launchProcess r lr (some p)).record.procStatus.pid = p ∧
     (launchProcess r lr (some p)).record.procStatus.active = true ∧
     (launchProcess r lr (some p)).record.procStatus.error = r.procStatus.error) ∧
    ((launchProcess (NewProcRuntimeData cfg) lr none).record.procStatus.pid = 0 ∧
     (launchProcess (NewProcRuntimeData cfg) lr none).record.procStatus.active
        = false) := by
  cases lr <;> simp [launchProcess, doProcessSettings, NewProcRuntimeData]

/-- C2 counterexample: a run-and-wait process that exits by itself before
the deadline with a nonzero status (RunOutcome.exited 1, which is not the
killed-by-deadline outcome) surfaces as an ExitError, so the code sets
timedOut = true (and done = true) although the process was not killed by
timeout expiry — the claim demanded timedOut = false here. -/
theorem wait_nonzero_exit_marks_timeout :
    RunOutcome.exited 1 ≠ RunOutcome.killedByTimeout ∧
    (launchProcessAndWait (NewProcRuntimeData cfgB) (some 1) true
        (RunOutcome.exited 1)).record.procStatus.timeout = true ∧
    (launchProcessAndWait (NewProcRuntimeData cfgB) (some 1) true
        (RunOutcome.exited 1)).record.procStatus.done = true :=
  ⟨by decide, rfl, rfl⟩

/-- C2 amended: timedOut is set exactly when Run reports an ExitError,
which covers both a kill by deadline expiry and a self-exit with nonzero
status; done is set with it; only a process that exits by itself with
status 0 before the deadline ends with done = true and timedOut = false. -/
theorem wait_timeout_flag_iff_exit_error (r : GPCProcRuntimeData)
    (lr : Option Nat) (oc : RunOutcome)
    (h : r.procStatus.timeout = false) :
    ((launchProcessAndWait r lr true oc).record.procStatus.timeout = true ↔
      runResult oc = some RunError.exitError) ∧
    (runResult oc = some RunError.exitError →
      (launchProcessAndWait r lr true oc).record.procStatus.done = true) ∧
    (oc = RunOutcome.exited 0 →
      (launchProcessAndWait r lr true oc).record.procStatus.done = true ∧
      (launchProcessAndWait r lr true oc).record.procStatus.timeout = false) ∧
    (oc = RunOutcome.startFailure →
      (launchProcessAndWait r lr true oc).record.procStatus.error = true ∧
      (launchProcessAndWait r lr true oc).record.procStatus.done =
        r.procStatus.done ∧
      (launchProcessAndWait r lr true oc).record.procStatus.timeout = false) := by
  rcases oc with _ | (_ | code) | _ <;> cases lr <;>
    simp [launchProcessAndWait, doProcessSettings, runResult, h]

/-- Witness for C2 amended: process B killed by its 2 second deadline. -/
theorem wait_timeout_flag_iff_exit_error_witness :
    (NewProcRuntimeData cfgB).procStatus.timeout = false ∧
    (((launchProcessAndWait (NewProcRuntimeData cfgB) (some 1) true
          RunOutcome.killedByTimeout).record.procStatus.timeout = true ↔
        runResult RunOutcome.killedByTimeout = some RunError.exitError) ∧
     (runResult RunOutcome.killedByTimeout = some RunError.exitError →
        (launchProcessAndWait (NewProcRuntimeData cfgB) (some 1) true
          RunOutcome.killedByTimeout).record.procStatus.done = true) ∧
     (RunOutcome.killedByTimeout = RunOutcome.exited 0 →
        (launchProcessAndWait (NewProcRuntimeData cfgB) (some 1) true
          RunOutcome.killedByTimeout).record.procStatus.done = true ∧
        (launchProcessAndWait (NewProcRuntimeData cfgB) (some 1) true
          RunOutcome.killedByTimeout).record.procStatus.timeout = false) ∧
     (RunOutcome.killedByTimeout = RunOutcome.startFailure →
        (launchProcessAndWait (NewProcRuntimeData cfgB) (some 1) true
          RunOutcome.killedByTimeout).record.procStatus.error = true ∧
        (launchProcessAndWait (NewProcRuntimeData cfgB) (some 1) true
          RunOutcome.killedByTimeout).record.procStatus.done =
          (NewProcRuntimeData cfgB).procStatus.done ∧
        (launchProcessAndWait (NewProcRuntimeData cfgB) (some 1) true
          RunOutcome.killedByTimeout).record.procStatus.timeout = false)) :=
  ⟨rfl, wait_timeout_flag_iff_exit_error (NewProcRuntimeData cfgB) (some 1)
    RunOutcome.killedByTimeout rfl⟩

/-- C6 counterexample: launchProcessAndWait sets active = true
unconditionally after Run and never assigns pid, so a fresh run-and-wait
record ends active with pid still unset (0). -/
theorem wait_sets_active_without_pid :
    (launchProcessAndWait (NewProcRuntimeData cfgB) (some 1) true
        (RunOutcome.exited 0)).record.procStatus.active = true ∧
    (launchProcessAndWait (NewProcRuntimeData cfgB) (some 1) true
        (RunOutcome.exited 0)).record.procStatus.pid = 0 :=
  ⟨rfl, rfl⟩

theorem launchProcess_restartCount (r : GPCProcRuntimeData)
    (lr sr : Option Nat) :
    (launchProcess r lr sr).record.procStatus.restartCount =
      r.procStatus.restartCount := by
  cases lr <;> cases sr <;> rfl

theorem pidInv_restartPolicy (r : GPCProcRuntimeData)
    (ha : r.procStatus.active = false) (lr sr : Option Nat)
    (hsr : sr = none ∨ ∃ p, sr = some p ∧ p ≠ 0) :
    pidInv (restartPolicy r lr sr).1 := by
  rcases hsr with rfl | ⟨p, rfl, hp⟩ <;> cases lr <;>
    simp only [restartPolicy, launchProcess, doProcessSettings, pidInv] <;>
    split_ifs <;> simp_all

theorem shutdownRecord_not_running (ko : Nat → Bool) (alive : List Nat)
    (r : GPCProcRuntimeData)
    (hprobe : ¬ checkProcessRunning alive r.procStatus.pid = true) :
    shutdownRecord ko alive r = some (alive, deactivate r, closeSink r) := by
  simp [shutdownRecord, hprobe]

theorem shutdownRecord_kill (ko : Nat → Bool) (alive : List Nat)
    (r : GPCProcRuntimeData) (cmd : Cmd) (hOs : OSProcess)
    (hprobe : checkProcessRunning alive r.procStatus.pid = true)
    (hc : r.procCmd = some cmd) (hh : cmd.process = some hOs) :
    shutdownRecord ko alive r =
      some ((if ko hOs.pid = true then
          alive.filter (fun q => decide (q ≠ hOs.pid)) else alive),
        deactivate r,
        [Event.sigterm hOs.pid, Event.sigkill hOs.pid,
         Event.taskkill hOs.pid] ++ closeSink r) := by
  simp [shutdownRecord, killProcess, hprobe, hc, hh]

theorem shutdownRecord_record_eq (ko : Nat → Bool) (alive : List Nat)
    (r : GPCProcRuntimeData) (a2 : List Nat) (r2 : GPCProcRuntimeData)
    (evs : List Event)
    (hsr : shutdownRecord ko alive r = some (a2, r2, evs)) :
    r2 = deactivate r := by
  by_cases hprobe : checkProcessRunning alive r.procStatus.pid = true
  · cases hc : r.procCmd with
    | none => simp [shutdownRecord, hprobe, hc] at hsr
    | some cmd =>
      cases hh : cmd.process with
      | none => simp [shutdownRecord, killProcess, hprobe, hc, hh] at hsr
      | some hOs =>
        rw [shutdownRecord_kill ko alive r cmd hOs hprobe hc hh,
          Option.some.injEq, Prod.mk.injEq, Prod.mk.injEq] at hsr
        exact hsr.2.1.symm
  · rw [shutdownRecord_not_running ko alive r hprobe,
      Option.some.injEq, Prod.mk.injEq, Prod.mk.injEq] at hsr
    exact hsr.2.1.symm

/-- C6 counterexample puts the record of the wait variant outside the
invariant; this amended statement is what the code maintains: the
invariant "active implies pid assigned" is established by a successful
no-wait launch (with a nonzero pid), kept by a failed launch, kept by
every monitor visit whose restart launch yields a nonzero pid or fails,
and kept by shutdown. -/
theorem active_pid_invariant_nowait (r : GPCProcRuntimeData)
    (hInv : pidInv r) :
    (∀ lr, pidInv (launchProcess r lr none).record) ∧
    (∀ lr p, p ≠ 0 → pidInv (launchProcess r lr (some p)).record) ∧
    (∀ alive lr sr, (sr = none ∨ ∃ p, sr = some p ∧ p ≠ 0) →
      pidInv (monitorRecord alive r lr sr).1) ∧
    (∀ ko alive a2 r2 evs,
      shutdownRecord ko alive r = some (a2, r2, evs) → pidInv r2) := by
  refine ⟨?_, ?_, ?_, ?_⟩
  · intro lr
    cases lr <;>
      simp only [launchProcess, doProcessSettings, pidInv] <;>
      exact fun hx => hInv hx
  · intro lr p hp
    cases lr <;>
      simp only [launchProcess, doProcessSettings, pidInv] <;>
      exact fun _ => hp
  · intro alive lr sr hsr
    unfold monitorRecord
    split
    · split
      · exact hInv
      · exact pidInv_restartPolicy
          { r with procStatus := { r.procStatus with active := false } }
          rfl lr sr hsr
    · exact hInv
  · intro ko alive a2 r2 evs hsr
    rw [shutdownRecord_record_eq ko alive r a2 r2 evs hsr]
    intro hx
    cases hx

/-- Witness for C6 amended: the invariant holds of the freshly launched
record recC and is kept by a monitor visit that finds it dead and cannot
restart it. -/
theorem active_pid_invariant_nowait_witness :
    pidInv recC ∧ pidInv (monitorRecord [] recC none none).1 :=
  ⟨fun _ => by decide,
   (active_pid_invariant_nowait recC (fun _ => by decide)).2.2.1 [] none none
     (Or.inl rfl)⟩

/-- C3 counterexample: process C (no restart budget) is launched with
sink 7, its exit is detected by the monitor (which closes sink 7 but
leaves the handle on the record), and ShutdownAll then closes sink 7 a
second time: the run's trace closes the same sink twice. -/
theorem sink_double_close :
    ∃ a2 r2 evs2,
      shutdownRecord (fun _ => true) [] (monitorRecord [] recC none none).1 =
        some (a2, r2, evs2) ∧
      countEvent ((launchProcess (NewProcRuntimeData cfgC) (some 7) (some 5)).events
          ++ (monitorRecord [] recC none none).2.1 ++ evs2)
        (Event.sinkClose 7) = 2 :=
  ⟨_, _, _, rfl, rfl⟩

/-- C3 amended: at most one sink is open per record at a time, and on a
detected exit the monitor closes it exactly once, but it leaves procLog
set, so ShutdownAll closes the same sink exactly once more: monitor
detection followed by shutdown closes the sink twice in total (no sink is
left open, but close-exactly-once fails). -/
theorem monitor_then_shutdown_close_counts (cfg : ProcessConfig)
    (p s c : Nat) (hw : cfg.waitForExitTimeoutS = 0)
    (hm : cfg.maxRestarts = 0) :
    countEvent (monitorRecord [] (runState cfg p s c) none none).2.1
        (Event.sinkClose s) = 1 ∧
    (monitorRecord [] (runState cfg p s c) none none).1.procLog = some s ∧
    ∃ a2 r2 evs2,
      shutdownRecord (fun _ => true) []
          (monitorRecord [] (runState cfg p s c) none none).1 =
        some (a2, r2, evs2) ∧
      countEvent evs2 (Event.sinkClose s) = 1 := by
  have hmon : monitorRecord [] (runState cfg p s c) none none =
      ({ runState cfg p s c with procStatus :=
          { (runState cfg p s c).procStatus with active := false } },
       [Event.sinkClose s], false) := by
    simp [monitorRecord, runState, checkProcessRunning, restartPolicy, hw, hm,
      closeSink]
  rw [hmon]
  refine ⟨by simp [countEvent], rfl, ?_⟩
  have hsd : shutdownRecord (fun _ => true) []
      ({ runState cfg p s c with procStatus :=
          { (runState cfg p s c).procStatus with active := false } }) =
      some ([],
        deactivate ({ runState cfg p s c with procStatus :=
          { (runState cfg p s c).procStatus with active := false } }),
        [Event.sinkClose s]) := by
    simp [shutdownRecord, checkProcessRunning, deactivate, closeSink, runState]
  exact ⟨_, _, _, hsd, by simp [countEvent]⟩

/-- Witness for C3 amended at the concrete process C record. -/
theorem monitor_then_shutdown_close_counts_witness :
    cfgC.waitForExitTimeoutS = 0 ∧ cfgC.maxRestarts = 0 ∧
    (countEvent (monitorRecord [] (runState cfgC 5 7 0) none none).2.1
        (Event.sinkClose 7) = 1 ∧
     (monitorRecord [] (runState cfgC 5 7 0) none none).1.procLog = some 7 ∧
     ∃ a2 r2 evs2,
       shutdownRecord (fun _ => true) []
           (monitorRecord [] (runState cfgC 5 7 0) none none).1 =
         some (a2, r2, evs2) ∧
       countEvent evs2 (Event.sinkClose 7) = 1) :=
  ⟨rfl, rfl, monitor_then_shutdown_close_counts cfgC 5 7 0 rfl rfl⟩

theorem restartPolicy_restartCount (r : GPCProcRuntimeData)
    (lr sr : Option Nat)
    (h : r.procStatus.restartCount ≤ r.procConfig.maxRestarts) :
    r.procStatus.restartCount ≤
        (restartPolicy r lr sr).1.procStatus.restartCount ∧
      (restartPolicy r lr sr).1.procStatus.restartCount ≤
        r.procConfig.maxRestarts := by
  unfold restartPolicy
  split
  · split
    next hlt =>
      constructor
      · rw [launchProcess_restartCount]
        exact Nat.le_succ _
      · rw [launchProcess_restartCount]
        exact hlt
    next hlt => exact ⟨Nat.le_refl _, h⟩
  · exact ⟨Nat.le_refl _, h⟩

/-- C7: restartCount never decreases under any operation of the
supervisor — record construction, either launcher variant, a monitor
visit, or shutdown — and never exceeds spec.maxRestarts. -/
theorem restartCount_monotone_bounded (r : GPCProcRuntimeData)
    (h : r.procStatus.restartCount ≤ r.procConfig.maxRestarts) :
    ((NewProcRuntimeData r.procConfig).procStatus.restartCount = 0) ∧
    (∀ lr sr, (launchProcess r lr sr).record.procStatus.restartCount =
      r.procStatus.restartCount) ∧
    (∀ lr pk oc,
      (launchProcessAndWait r lr pk oc).record.procStatus.restartCount =
        r.procStatus.restartCount) ∧
    (∀ alive lr sr,
      r.procStatus.restartCount ≤
          (monitorRecord alive r lr sr).1.procStatus.restartCount ∧
        (monitorRecord alive r lr sr).1.procStatus.restartCount ≤
          r.procConfig.maxRestarts) ∧
    (∀ ko alive a2 r2 evs, shutdownRecord ko alive r = some (a2, r2, evs) →
      r2.procStatus.restartCount = r.procStatus.restartCount) := by
  refine ⟨rfl, fun lr sr => launchProcess_restartCount r lr sr, ?_, ?_, ?_⟩
  · intro lr pk oc
    cases lr <;> cases pk <;> rcases oc with _ | (_ | code) | _ <;> rfl
  · intro alive lr sr
    unfold monitorRecord
    split
    · split
      · exact ⟨Nat.le_refl _, h⟩
      · exact restartPolicy_restartCount
          { r with procStatus := { r.procStatus with active := false } } lr sr h
    · exact ⟨Nat.le_refl _, h⟩
  · intro ko alive a2 r2 evs hsr
    rw [shutdownRecord_record_eq ko alive r a2 r2 evs hsr]
    rfl

/-- Witness for C7 on the freshly launched record recC. -/
theorem restartCount_monotone_bounded_witness :
    recC.procStatus.restartCount ≤ recC.procConfig.maxRestarts ∧
    (NewProcRuntimeData recC.procConfig).procStatus.restartCount = 0 ∧
    (recC.procStatus.restartCount ≤
        (monitorRecord [] recC none none).1.procStatus.restartCount ∧
      (monitorRecord [] recC none none).1.procStatus.restartCount ≤
        recC.procConfig.maxRestarts) :=
  ⟨by decide, (restartCount_monotone_bounded recC (by decide)).1,
   (restartCount_monotone_bounded recC (by decide)).2.2.2.1 [] none none⟩

theorem map_deactivate_idem (rs : List GPCProcRuntimeData) :
    (rs.map deactivate).map deactivate = rs.map deactivate := by
  induction rs with
  | nil => rfl
  | cons r rs ih =>
      simp only [List.map_cons, ih]
      rfl

theorem shutdown_pass_kills (ko : Nat → Bool) (H2 : ∀ q, ko q = true) :
    ∀ (rs : List GPCProcRuntimeData) (alive : List Nat),
      (∀ r ∈ rs, r.procStatus.pid ∈ alive →
        ∃ cmd hOs, r.procCmd = some cmd ∧ cmd.process = some hOs ∧
          hOs.pid = r.procStatus.pid) →
      ∃ alive1 evs1,
        ShutdownAll ko alive rs = some (alive1, rs.map deactivate, evs1) ∧
        (∀ r ∈ rs, r.procStatus.pid ∉ alive1) ∧
        (∀ q ∈ alive1, q ∈ alive) := by
  intro rs
  induction rs with
  | nil =>
      intro alive H1
      exact ⟨alive, [], rfl, by simp, fun q hq => hq⟩
  | cons r rs ih =>
      intro alive H1
      by_cases hmem : r.procStatus.pid ∈ alive
      · obtain ⟨cmd, hOs, hc, hh, hpid⟩ :=
          H1 r (List.mem_cons_self r rs) hmem
        have hprobe : checkProcessRunning alive r.procStatus.pid = true := by
          simp [checkProcessRunning, hmem]
        have hrec2 : shutdownRecord ko alive r =
            some (alive.filter (fun q => decide (q ≠ hOs.pid)), deactivate r,
              [Event.sigterm hOs.pid, Event.sigkill hOs.pid,
               Event.taskkill hOs.pid] ++ closeSink r) := by
          rw [shutdownRecord_kill ko alive r cmd hOs hprobe hc hh]
          simp [H2 hOs.pid]
        have hsub2 : ∀ q ∈ alive.filter (fun q => decide (q ≠ hOs.pid)),
            q ∈ alive := fun q hq => (List.mem_filter.mp hq).1
        obtain ⟨alive1, evs1, hrun, hdead, hsub1⟩ :=
          ih (alive.filter (fun q => decide (q ≠ hOs.pid)))
            (fun r2 hr2 hm2 =>
              H1 r2 (List.mem_cons_of_mem r hr2) (hsub2 _ hm2))
        refine ⟨alive1,
          ([Event.sigterm hOs.pid, Event.sigkill hOs.pid,
            Event.taskkill hOs.pid] ++ closeSink r) ++ evs1, ?_, ?_, ?_⟩
        · simp only [ShutdownAll]
          rw [hrec2]
          simp only []
          rw [hrun]
          rfl
        · intro r2 hr2
          rcases List.mem_cons.mp hr2 with hr2 | hr2
        
          · subst hr2
            intro hcon
            have hmf := hsub1 _ hcon
            rw [List.mem_filter] at hmf
            exact (of_decide_eq_true hmf.2) hpid.symm
          · exact hdead r2 hr2
        · exact fun q hq => hsub2 _ (hsub1 _ hq)
      · have hprobe : ¬ checkProcessRunning alive r.procStatus.pid = true := by
          simp [checkProcessRunning, hmem]
        obtain ⟨alive1, evs1, hrun, hdead, hsub1⟩ :=
          ih alive (fun r2 hr2 hm2 => H1 r2 (List.mem_cons_of_mem r hr2) hm2)
        refine ⟨alive1, closeSink r ++ evs1, ?_, ?_, hsub1⟩
        · simp only [ShutdownAll]
          rw [shutdownRecord_not_running ko alive r hprobe]
          simp only []
          rw [hrun]
          rfl
        · intro r2 hr2
          rcases List.mem_cons.mp hr2 with hr2 | hr2
          · subst hr2
            exact fun hcon => hmem (hsub1 _ hcon)
          · exact hdead r2 hr2

theorem shutdown_pass_dead (ko : Nat → Bool) :
    ∀ (rs : List GPCProcRuntimeData) (alive : List Nat),
      (∀ r ∈ rs, r.procStatus.pid ∉ alive) →
      ∃ evs2, ShutdownAll ko alive rs = some (alive, rs.map deactivate, evs2) ∧
        evs2.filter isKillEvent = [] := by
  intro rs
  induction rs with
  | nil => intro alive H; exact ⟨[], rfl, rfl⟩
  | cons r rs ih =>
      intro alive H
      have hprobe : ¬ checkProcessRunning alive r.procStatus.pid = true := by
        simp [checkProcessRunning, H r (List.mem_cons_self r rs)]
      obtain ⟨evs2, hrun, hkill⟩ :=
        ih alive (fun r2 hr2 => H r2 (List.mem_cons_of_mem r hr2))
      refine ⟨closeSink r ++ evs2, ?_, ?_⟩
      · simp only [ShutdownAll]
        rw [shutdownRecord_not_running ko alive r hprobe]
        simp only []
        rw [hrun]
        rfl
      · rw [List.filter_append, hkill]
        cases hcl : r.procLog <;> simp [closeSink, isKillEvent, hcl]

/-- C4: ShutdownAll is idempotent: when every record that the OS still
reports alive carries a live launch handle for its own pid and the forced
kills succeed, one pass leaves every record inactive, and a second pass
performs no kill attempt at all and completes without a panic, returning
the records unchanged. -/
theorem shutdown_idempotent (ko : Nat → Bool) (alive : List Nat)
    (rs : List GPCProcRuntimeData)
    (H1 : ∀ r ∈ rs, r.procStatus.pid ∈ alive →
      ∃ cmd hOs, r.procCmd = some cmd ∧ cmd.process = some hOs ∧
        hOs.pid = r.procStatus.pid)
    (H2 : ∀ q, ko q = true) :
    ∃ alive1 rs1 evs1,
      ShutdownAll ko alive rs = some (alive1, rs1, evs1) ∧
      (∀ r2 ∈ rs1, r2.procStatus.active = false) ∧
      ∃ evs2, ShutdownAll ko alive1 rs1 = some (alive1, rs1, evs2) ∧
        evs2.filter isKillEvent = [] := by
  obtain ⟨alive1, evs1, hrun, hdead, hsub⟩ :=
    shutdown_pass_kills ko H2 rs alive H1
  refine ⟨alive1, rs.map deactivate, evs1, hrun, ?_, ?_⟩
  · intro r2 hr2
    obtain ⟨r, hr, rfl⟩ := List.mem_map.mp hr2
    rfl
  · have hdead2 : ∀ r2 ∈ rs.map deactivate, r2.procStatus.pid ∉ alive1 := by
      intro r2 hr2
      obtain ⟨r, hr, rfl⟩ := List.mem_map.mp hr2
      exact hdead r hr
    obtain ⟨evs2, hrun2, hkill⟩ :=
      shutdown_pass_dead ko (rs.map deactivate) alive1 hdead2
    rw [map_deactivate_idem] at hrun2
    exact ⟨evs2, hrun2, hkill⟩

/-- Witness for C4: one record (pid 9, live handle) with the OS reporting
pid 9 alive and the forced kill succeeding. -/
theorem shutdown_idempotent_witness :
    ∃ alive1 rs1 evs1,
      ShutdownAll (fun _ => true) [9] [recW] = some (alive1, rs1, evs1) ∧
      (∀ r2 ∈ rs1, r2.procStatus.active = false) ∧
      ∃ evs2, ShutdownAll (fun _ => true) alive1 rs1 =
          some (alive1, rs1, evs2) ∧
        evs2.filter isKillEvent = [] :=
  shutdown_idempotent (fun _ => true) [9] [recW]
    (by
      intro r hr hm
      rw [List.mem_singleton] at hr
      subst hr
      exact ⟨cmdK, { pid := 9 }, rfl, rfl, rfl⟩)
    (fun q => rfl)
